import Mathlib

/-!
Shallow embedding of `checkmake` (src/checkmake.py and src/test/test.py).

The program is a sequential acceptance-test pipeline: extract a gzip tarball
into a workspace, run `make` there, check `README.txt`, optionally check a
named target file, with a two-sink leveled logger.  External effects
(filesystem, subprocess) are abstracted as explicit inputs (oracles) and the
operational behaviour of `main` is embedded as an event trace.
-/

namespace Checkmake

/-! ### Log levels (class `Log`, src/checkmake.py lines 16-25) -/

def Log.NONE : Nat := 0

def Log.FATAL : Nat := 1

def Log.ERROR : Nat := 2

def Log.WARNING : Nat := 3

def Log.INFO : Nat := 4

def Log.DEBUG : Nat := 5

def Log.ALL : Nat := 6

/-- Embedding of `Log.print` (lines 45-63): given the file threshold, the
console threshold and the message level, it returns `none` when the level is
out of range (the Python code raises `ValueError`; negative levels are not
representable with `Nat`), and otherwise the pair of booleans
(written to file, written to console).  The code writes to the file iff
`level <= self.file_level` and to the console iff `level <= self.console_level`. -/
def Log.printModel (fileLevel consoleLevel level : Nat) : Option (Bool × Bool) :=
  if Log.ALL < level then none
  else some (decide (level ≤ fileLevel), decide (level ≤ consoleLevel))

/-! ### Python string strip, used by the transcript logging of `test_make` -/

/-- The ASCII whitespace characters removed by Python `str.strip()`. -/
def pySpace (c : Char) : Bool :=
  c = ' ' || c = '\t' || c = '\n' || c = '\r' || c = '\x0b' || c = '\x0c'

/-- Python `s.strip()`: drop leading and trailing whitespace. -/
def pystrip (s : String) : String :=
  String.mk (((s.data.dropWhile pySpace).reverse.dropWhile pySpace).reverse)

/-! ### `os.path.join` on two string arguments -/

/-- Embedding of `os.path.join(a, b)` for POSIX paths: an absolute second component
replaces the first; otherwise the parts are joined with a single slash. -/
def pathJoin (a b : String) : String :=
  if b.startsWith "/" then b
  else if a = "" then b
  else if a.endsWith "/" then a ++ b
  else a ++ "/" ++ b

/-! ### Archive extraction: `test_tarball` (lines 135-164)

The tarfile interaction is abstracted: opening the archive either fails
(corrupt file, wrong format, unreadable) or yields the member list; the
`tar.extractall` call either succeeds or raises.  Every exception in the
Python body is caught by the single `except Exception` handler, which logs an
error and returns `None`; the embedding is accordingly a total function
returning `Option String` (the project directory) plus the levels of the log
records written, in order. -/

/-- Type field of a tar member: `tarfile.DIRTYPE` versus anything else. -/
inductive TarMemberType where
  | dir
  | other
  deriving DecidableEq, Repr

structure TarMember where
  name : String
  type : TarMemberType
  deriving DecidableEq, Repr

/-- Result of `tarfile.open`: failure to open/read, or the member list. -/
inductive TarOpen where
  | fail
  | ok (members : List TarMember)
  deriving DecidableEq, Repr

/-- Embedding of `test_tarball`.  `extractOk` abstracts whether
`tar.extractall` succeeds.  Returns the project directory (`none` is the
Python `None` sentinel) and the list of log levels emitted, in order.
`tar.getmembers()[0]` on an empty member list raises `IndexError`, which the
`except Exception` handler turns into an error log and `None`. -/
def test_tarball (working_dir : String) (tar : TarOpen) (extractOk : Bool) :
    Option String × List Nat :=
  let logs := [Log.INFO]
  match tar with
  | TarOpen.fail => (none, logs ++ [Log.ERROR])
  | TarOpen.ok [] => (none, logs ++ [Log.ERROR])
  | TarOpen.ok (top :: _) =>
    let step :=
      if top.type = TarMemberType.dir then
        (pathJoin working_dir top.name, logs ++ [Log.INFO])
      else
        (working_dir, logs ++ [Log.WARNING])
    if extractOk then (some step.1, step.2 ++ [Log.INFO])
    else (none, step.2 ++ [Log.ERROR])

/-! ### Build stage: `test_make` (lines 169-214)

The subprocess run is abstracted by its outcome (`returncode`, captured
`stdout`, captured `stderr`); the two file writes are abstracted by success
flags (an exception while writing is caught and turns the stage into a
failure).  The transcript is logged before the files are written, with the
two streams passed through Python `.strip()`; the files receive the raw
captured text.  `fileStdout`/`fileStderr` are `none` when that file was not
successfully written. -/

structure MakeResult where
  success : Bool
  transcriptLevel : Nat
  fileStdout : Option String
  fileStderr : Option String
  logStdout : String
  logStderr : String
  deriving DecidableEq, Repr

/-- Embedding of `test_make` for a run where the build command executed and
produced `returncode`, `stdout`, `stderr`.  `stdoutWriteOk` / `stderrWriteOk`
abstract whether each capture-file write succeeds; the stdout file is written
first, so a failing stdout write leaves the stderr file unwritten. -/
def test_make (returncode : Int) (stdout stderr : String)
    (stdoutWriteOk stderrWriteOk : Bool) : MakeResult :=
  let log_level := if returncode = 0 then Log.INFO else Log.ERROR
  let logOut := pystrip stdout
  let logErr := pystrip stderr
  if stdoutWriteOk = false then
    { success := false, transcriptLevel := log_level,
      fileStdout := none, fileStderr := none,
      logStdout := logOut, logStderr := logErr }
  else if stderrWriteOk = false then
    { success := false, transcriptLevel := log_level,
      fileStdout := some stdout, fileStderr := none,
      logStdout := logOut, logStderr := logErr }
  else
    { success := decide (returncode = 0), transcriptLevel := log_level,
      fileStdout := some stdout, fileStderr := some stderr,
      logStdout := logOut, logStderr := logErr }

/-! ### Deliverable checks: `test_readme` (lines 217-242) and
`test_target` (lines 246-269)

`os.stat` is abstracted by its outcome: success with a file size,
`FileNotFoundError`, or any other exception.  Both Python functions catch
`FileNotFoundError` and then `Exception`, log an error and return `False`;
the embeddings are total functions returning the boolean and the levels of
the log records written. -/

/-- Outcome of the `os.stat` call on the checked file. -/
inductive StatResult where
  | ok (size : Nat)
  | fileNotFound
  | otherError
  deriving DecidableEq, Repr

/-- Embedding of `test_readme`: fails (with an error log) when the stat
raises or the file is empty. -/
def test_readme (stat : StatResult) : Bool × List Nat :=
  match stat with
  | StatResult.ok size =>
    if size = 0 then (false, [Log.ERROR]) else (true, [])
  | StatResult.fileNotFound => (false, [Log.ERROR])
  | StatResult.otherError => (false, [Log.ERROR])

/-- Embedding of `test_target`: existence alone suffices; any stat failure
logs an error and returns `False`. -/
def test_target (stat : StatResult) : Bool × List Nat :=
  match stat with
  | StatResult.ok _ => (true, [])
  | StatResult.fileNotFound => (false, [Log.ERROR])
  | StatResult.otherError => (false, [Log.ERROR])

/-! ### Path containment: `path_is_parent` (lines 117-130)

`os.path.abspath` is abstracted as a function from path strings to the
normalized absolute path, represented as its list of components; it is an
input of the model (it depends on the current directory of the process).
`os.path.commonpath` of a non-empty sequence of absolute component lists is
the longest common component-wise lead; of a singleton it is the path itself. -/

/-- Longest common component-wise lead of two component lists. -/
def commonLead : List String → List String → List String
  | a :: as, b :: bs => if a = b then a :: commonLead as bs else []
  | _, _ => []

/-- Embedding of `os.path.commonpath` over a list of (already absolute, normalized)
component lists; `none` for the empty sequence (Python raises). -/
def commonpath : List (List String) → Option (List String)
  | [] => none
  | p :: rest => some (rest.foldl commonLead p)

/-- Embedding of `path_is_parent`: resolve both paths with `abspath` and
compare `commonpath([parent_abs])` with `commonpath([parent_abs, child_abs])`. -/
def path_is_parent (abspath : String → List String)
    (parent_path child_path : String) : Bool :=
  let parent_abs := abspath parent_path
  let child_abs := abspath child_path
  decide (commonpath [parent_abs] = commonpath [parent_abs, child_abs])

/-! ### The orchestrator: `main` (lines 372-427)

`main` is embedded as the trace of its externally visible actions, in program
order.  The parsed options are an input (`handle_args` fills the fields; the
defaults below are the dataclass defaults, with `working_dir` set to
`./work` as `handle_args` does).  The outcomes of the four stages are an
oracle, since they depend on the filesystem and the build command.
`sys.exit(n)` is the trace event `exitCode n` and ends the trace; falling off
the end of `main` is `exitCode 0`. -/

/-- The fields of `Options` (lines 98-115) that the control flow of `main` reads.
`remove_work` and `preserve_work` default to `False` and no command-line
option ever sets either to `True` (`-x` re-assigns `preserve_work = False`). -/
structure Options where
  remove_work : Bool := false
  preserve_work : Bool := false
  working_dir : String := "./work"
  target : String := ""
  deriving DecidableEq, Repr

/-- Oracle for the outcomes of the four pipeline stages. -/
structure StageOracle where
  extractOk : Bool
  buildOk : Bool
  readmeOk : Bool
  targetOk : Bool
  deriving DecidableEq, Repr

/-- Externally visible actions of `main`, in program order. -/
inductive Ev where
  /-- Event for `sys.exit(code)`, or falling off the end of `main` with code 0. -/
  | exitCode (code : Nat)
  /-- Event for `shutil.rmtree(opts.working_dir)` before the run (line 386). -/
  | rmtreeWork
  /-- Event for `os.makedirs(opts.working_dir)` (line 389). -/
  | makedirsWork
  /-- the call to `test_tarball` (line 401). -/
  | stageExtract
  /-- the call to `test_make` (line 407). -/
  | stageBuild
  /-- the call to `test_readme` (line 412). -/
  | stageReadme
  /-- the call to `test_target` (line 418). -/
  | stageTarget
  /-- Event for `shutil.rmtree(opts.working_dir)` at the end of the run (line 424). -/
  | finalCleanup
  deriving DecidableEq, Repr

/-- Embedding of `main` as its action trace.  The guard, the pre-run
removal/creation of the workspace, the four gated stages, and the end-of-run
cleanup follow the source line by line; each failing stage is `sys.exit(1)`. -/
def mainTrace (abspath : String → List String) (opts : Options)
    (o : StageOracle) : List Ev :=
  if path_is_parent abspath "." opts.working_dir = false then
    [Ev.exitCode 1]
  else
    let tailEnd :=
      (if opts.remove_work = false then [Ev.finalCleanup] else []) ++
        [Ev.exitCode 0]
    (if opts.preserve_work = false then [Ev.rmtreeWork] else []) ++
      [Ev.makedirsWork, Ev.stageExtract] ++
      (if o.extractOk = false then [Ev.exitCode 1] else
        Ev.stageBuild ::
          (if o.buildOk = false then [Ev.exitCode 1] else
            Ev.stageReadme ::
              (if o.readmeOk = false then [Ev.exitCode 1] else
                (if opts.target = "" then tailEnd
                 else
                   Ev.stageTarget ::
                     (if o.targetOk = false then [Ev.exitCode 1] else tailEnd)))))

/-- The stage events of a trace, in order. -/
def Ev.isStage : Ev → Bool
  | Ev.stageExtract => true
  | Ev.stageBuild => true
  | Ev.stageReadme => true
  | Ev.stageTarget => true
  | _ => false

def stagesOf (tr : List Ev) : List Ev := tr.filter Ev.isStage

/-- All four stages succeed (with the target stage vacuous when no target
was requested): exactly the runs in which `main` reaches its final section. -/
def pipelineOk (opts : Options) (o : StageOracle) : Bool :=
  o.extractOk && o.buildOk && o.readmeOk && (opts.target == "" || o.targetOk)

end Checkmake

namespace TestPy

/-! ### The self-test harness, src/test/test.py

The table `tests` maps archive filename to expected outcome (1 = the
pipeline should exit 0, 0 = it should exit non-zero).  The loop in `main`
runs `checkmake.py` on each entry of the table — the return code of the
child process is abstracted as an oracle `returncodeOf` — and prints one `OK` or
`ERROR` line per entry, with no early exit. -/

/-- The fixed case table (test.py lines 6-13); Python dict iteration order is
insertion order. -/
def tests : List (String × Nat) :=
  [("project.tar", 0),
   ("project.tar.gz", 1),
   ("project_build_error.tar.gz", 0),
   ("project_empty_readme.tar.gz", 0),
   ("project_no_dir.tar.gz", 1),
   ("project_no_readme.tar.gz", 0)]

/-- One loop iteration of `main` in test.py (lines 48-64): observed
`rc = 1 if returncode == 0 else 0`, then `ERROR` if the expectation differs,
else `OK`. -/
def runCase (returncodeOf : String → Int) (name : String) (expected : Nat) :
    String :=
  let rc : Nat := if returncodeOf name = 0 then 1 else 0
  if expected ≠ rc then "ERROR" else "OK"

/-- Embedding of the `main` loop of test.py: the per-case console lines, in table
order, as (archive name, verdict) pairs. -/
def main (returncodeOf : String → Int) : List (String × String) :=
  tests.map (fun p => (p.1, runCase returncodeOf p.1 p.2))

end TestPy

/-! ## Theorems for the claims -/

open Checkmake

/-- C3: for every message level among NONE, FATAL, ERROR, WARNING, INFO,
DEBUG, ALL and every pair of configured thresholds, `Log.print` writes the
message to the log file iff the level is at most the file threshold and,
independently, to the console iff the level is at most the console
threshold. -/
theorem c3_log_thresholds (fileLevel consoleLevel level : Nat)
    (h : level ≤ Log.ALL) :
    ∃ toFile toConsole,
      Log.printModel fileLevel consoleLevel level = some (toFile, toConsole) ∧
      (toFile = true ↔ level ≤ fileLevel) ∧
      (toConsole = true ↔ level ≤ consoleLevel) := by
  refine ⟨decide (level ≤ fileLevel), decide (level ≤ consoleLevel), ?_, by simp, by simp⟩
  simp [Log.printModel, Nat.not_lt.mpr h]

/-- Witness for C3 at level INFO with file threshold 4 and console
threshold 3. -/
theorem c3_log_thresholds_witness :
    ∃ toFile toConsole,
      Log.printModel 4 3 4 = some (toFile, toConsole) ∧
      (toFile = true ↔ 4 ≤ 4) ∧ (toConsole = true ↔ 4 ≤ 3) :=
  c3_log_thresholds 4 3 4 (by decide)

/-- C4: `test_make` succeeds exactly when the exit code of the build is 0 and
both capture files were written; the transcript is logged at INFO when the
exit code is 0 and at ERROR otherwise, regardless of the writes. -/
theorem c4_make_success_iff (returncode : Int) (stdout stderr : String)
    (stdoutWriteOk stderrWriteOk : Bool) :
    ((test_make returncode stdout stderr stdoutWriteOk stderrWriteOk).success = true ↔
      (returncode = 0 ∧ stdoutWriteOk = true ∧ stderrWriteOk = true)) ∧
    ((test_make returncode stdout stderr stdoutWriteOk stderrWriteOk).transcriptLevel
        = Log.INFO ↔ returncode = 0) ∧
    ((test_make returncode stdout stderr stdoutWriteOk stderrWriteOk).transcriptLevel
        = Log.ERROR ↔ returncode ≠ 0) := by
  cases stdoutWriteOk <;> cases stderrWriteOk <;>
    by_cases h : returncode = 0 <;>
      simp [test_make, Log.INFO, Log.ERROR, h]

/-- Witness for C4: a clean build with both writes succeeding is a stage
success with an INFO transcript. -/
theorem c4_make_success_iff_witness :
    (test_make 0 "out" "err" true true).success = true ∧
    (test_make 0 "out" "err" true true).transcriptLevel = Log.INFO :=
  ⟨((c4_make_success_iff 0 "out" "err" true true).1).mpr ⟨rfl, rfl, rfl⟩,
   ((c4_make_success_iff 0 "out" "err" true true).2.1).mpr rfl⟩

/-- C5 counterexample: for a build whose stdout is "ok\n", the capture file
receives the verbatim text "ok\n" while the log transcript receives the
stripped text "ok"; the two are different, so the persisted text is not
identical to the logged text. -/
theorem c5_transcript_differs_counterexample :
    (test_make 0 "ok\n" "" true true).fileStdout = some "ok\n" ∧
    (test_make 0 "ok\n" "" true true).logStdout = "ok" ∧
    ("ok" : String) ≠ "ok\n" := by decide

/-- C5 (amended): the capture files receive the verbatim captured stdout and
stderr, while the log transcript receives the same streams with leading and
trailing whitespace stripped (Python `.strip()`). -/
theorem c5_capture_verbatim_log_stripped (returncode : Int) (stdout stderr : String) :
    (test_make returncode stdout stderr true true).fileStdout = some stdout ∧
    (test_make returncode stdout stderr true true).fileStderr = some stderr ∧
    (test_make returncode stdout stderr true true).logStdout = pystrip stdout ∧
    (test_make returncode stdout stderr true true).logStderr = pystrip stderr := by
  by_cases h : returncode = 0 <;> simp [test_make, h]

/-- C6: for a successfully opened and extracted archive, the project
directory is workspace/<name> when the first member is a directory (name
taken from that member), and the workspace itself when the first member is
not a directory, in which case a warning is logged and no error is. -/
theorem c6_project_dir (working_dir name : String) (rest : List TarMember) :
    (test_tarball working_dir
        (TarOpen.ok (⟨name, TarMemberType.dir⟩ :: rest)) true).1
      = some (pathJoin working_dir name) ∧
    (test_tarball working_dir
        (TarOpen.ok (⟨name, TarMemberType.other⟩ :: rest)) true).1
      = some working_dir ∧
    Log.WARNING ∈
      (test_tarball working_dir
        (TarOpen.ok (⟨name, TarMemberType.other⟩ :: rest)) true).2 ∧
    Log.ERROR ∉
      (test_tarball working_dir
        (TarOpen.ok (⟨name, TarMemberType.other⟩ :: rest)) true).2 := by
  simp [test_tarball, Log.WARNING, Log.ERROR, Log.INFO]

/-- C7: an archive that cannot be opened or read, and an archive with zero
members, both make `test_tarball` return the `None` sentinel after logging
an error; the embedding is a total function, mirroring the `except
Exception` handler that keeps any exception from propagating. -/
theorem c7_extract_failure_sentinel (working_dir : String) (extractOk : Bool) :
    (test_tarball working_dir TarOpen.fail extractOk).1 = none ∧
    Log.ERROR ∈ (test_tarball working_dir TarOpen.fail extractOk).2 ∧
    (test_tarball working_dir (TarOpen.ok []) extractOk).1 = none ∧
    Log.ERROR ∈ (test_tarball working_dir (TarOpen.ok []) extractOk).2 := by
  simp [test_tarball, Log.ERROR, Log.INFO]

/-- C10: for every stat failure — file not found or any other error — both
`test_readme` and `test_target` log an error and return False; both
embeddings are total functions, mirroring the catch-all handlers that keep
exceptions from propagating. -/
theorem c10_checks_total_on_stat_errors :
    (test_readme StatResult.fileNotFound).1 = false ∧
    Log.ERROR ∈ (test_readme StatResult.fileNotFound).2 ∧
    (test_readme StatResult.otherError).1 = false ∧
    Log.ERROR ∈ (test_readme StatResult.otherError).2 ∧
    (test_target StatResult.fileNotFound).1 = false ∧
    Log.ERROR ∈ (test_target StatResult.fileNotFound).2 ∧
    (test_target StatResult.otherError).1 = false ∧
    Log.ERROR ∈ (test_target StatResult.otherError).2 := by decide

/-- C1 (code bug): when the configured working directory resolves to the
same absolute path as the current directory (for example `-w .`), the guard
`path_is_parent(".", working_dir)` returns True, so `main` does not exit;
its first action is the destructive `shutil.rmtree` of that directory — the
current directory itself — contradicting the claimed invariant and the
message printed by the program itself that the working directory must be a child of the
current directory. -/
theorem c1_equal_workdir_not_rejected :
    path_is_parent (fun _ => ["root", "proj"]) "." "." = true ∧
    (mainTrace (fun _ => ["root", "proj"]) { working_dir := "." }
        ⟨true, true, true, true⟩).head? = some Ev.rmtreeWork := by decide

/-- C2: whenever the working-directory guard passes, the stages run in the
strict order extract, build, README check, target check (each at most once);
after any failing stage no later stage event occurs and the run exits 1 and
never 0; and the target check never runs when no target was supplied. -/
theorem c2_stage_order (abspath : String → List String) (opts : Options)
    (o : StageOracle)
    (h : path_is_parent abspath "." opts.working_dir = true) :
    List.Sublist (stagesOf (mainTrace abspath opts o))
      [Ev.stageExtract, Ev.stageBuild, Ev.stageReadme, Ev.stageTarget] ∧
    Ev.stageExtract ∈ mainTrace abspath opts o ∧
    (o.extractOk = false →
      Ev.stageBuild ∉ mainTrace abspath opts o ∧
      Ev.stageReadme ∉ mainTrace abspath opts o ∧
      Ev.stageTarget ∉ mainTrace abspath opts o ∧
      Ev.exitCode 1 ∈ mainTrace abspath opts o ∧
      Ev.exitCode 0 ∉ mainTrace abspath opts o) ∧
    (o.buildOk = false →
      Ev.stageReadme ∉ mainTrace abspath opts o ∧
      Ev.stageTarget ∉ mainTrace abspath opts o ∧
      Ev.exitCode 1 ∈ mainTrace abspath opts o ∧
      Ev.exitCode 0 ∉ mainTrace abspath opts o) ∧
    (o.readmeOk = false →
      Ev.stageTarget ∉ mainTrace abspath opts o ∧
      Ev.exitCode 1 ∈ mainTrace abspath opts o ∧
      Ev.exitCode 0 ∉ mainTrace abspath opts o) ∧
    (opts.target ≠ "" → o.targetOk = false →
      Ev.exitCode 1 ∈ mainTrace abspath opts o ∧
      Ev.exitCode 0 ∉ mainTrace abspath opts o) ∧
    (opts.target = "" → Ev.stageTarget ∉ mainTrace abspath opts o) := by
  obtain ⟨e, b, r, t⟩ := o
  obtain ⟨rwk, pwk, wd, tg⟩ := opts
  simp only [Checkmake.mainTrace, h] at *
  cases e <;> cases b <;> cases r <;> cases t <;> cases pwk <;> cases rwk <;>
    by_cases htg : tg = "" <;>
      simp_all [Checkmake.stagesOf, Checkmake.Ev.isStage]

/-- Witness for C2 on a run with the default options (working directory
`./work`, resolving strictly inside the current directory) and all stages
succeeding. -/
theorem c2_stage_order_witness :
    Ev.stageExtract ∈
      mainTrace (fun s => if s = "." then ["base"] else ["base", "work"]) {}
        ⟨true, true, true, true⟩ :=
  (c2_stage_order (fun s => if s = "." then ["base"] else ["base", "work"]) {}
      ⟨true, true, true, true⟩ (by decide)).2.1

/-- C8 counterexample: a run whose extraction stage fails exits with code 1
immediately; the end-of-run conditional cleanup never happens even though
the configuration (`remove_work = False`) calls for the workspace to be
removed — so the cleanup is not the final action of every run and is not
independent of the outcome of the run. -/
theorem c8_failure_skips_cleanup_counterexample :
    ({} : Options).remove_work = false ∧
    mainTrace (fun s => if s = "." then ["root"] else ["root", "work"]) {}
        ⟨false, true, true, true⟩
      = [Ev.rmtreeWork, Ev.makedirsWork, Ev.stageExtract, Ev.exitCode 1] ∧
    Ev.finalCleanup ∉
      mainTrace (fun s => if s = "." then ["root"] else ["root", "work"]) {}
        ⟨false, true, true, true⟩ := by decide

/-- C8 (amended): whenever the guard passes, a fully successful run performs
the end-of-run conditional cleanup dictated by `remove_work` as its final
action before exiting 0 (it occurs iff `remove_work` is false); a run with
any failing stage exits 1 without ever performing the end-of-run cleanup. -/
theorem c8_cleanup_only_on_success (abspath : String → List String)
    (opts : Options) (o : StageOracle)
    (h : path_is_parent abspath "." opts.working_dir = true) :
    (pipelineOk opts o = true →
      ((Ev.finalCleanup ∈ mainTrace abspath opts o) ↔ opts.remove_work = false) ∧
      Ev.exitCode 0 ∈ mainTrace abspath opts o ∧
      (opts.remove_work = false →
        List.IsSuffix [Ev.finalCleanup, Ev.exitCode 0] (mainTrace abspath opts o))) ∧
    (pipelineOk opts o = false →
      Ev.finalCleanup ∉ mainTrace abspath opts o ∧
      Ev.exitCode 1 ∈ mainTrace abspath opts o ∧
      Ev.exitCode 0 ∉ mainTrace abspath opts o) := by
  obtain ⟨e, b, r, t⟩ := o
  obtain ⟨rwk, pwk, wd, tg⟩ := opts
  simp only [Checkmake.mainTrace, Checkmake.pipelineOk, h] at *
  cases e <;> cases b <;> cases r <;> cases t <;> cases pwk <;> cases rwk <;>
    by_cases htg : tg = "" <;>
      simp_all [List.IsSuffix] <;>
        first
          | decide
          | exact ⟨[Ev.rmtreeWork, Ev.makedirsWork, Ev.stageExtract, Ev.stageBuild,
                    Ev.stageReadme], rfl⟩
          | exact ⟨[Ev.makedirsWork, Ev.stageExtract, Ev.stageBuild,
                    Ev.stageReadme], rfl⟩
          | exact ⟨[Ev.rmtreeWork, Ev.makedirsWork, Ev.stageExtract, Ev.stageBuild,
                    Ev.stageReadme, Ev.stageTarget], rfl⟩
          | exact ⟨[Ev.makedirsWork, Ev.stageExtract, Ev.stageBuild,
                    Ev.stageReadme, Ev.stageTarget], rfl⟩

/-- Witness for C8 (amended) on a fully successful run with default options. -/
theorem c8_cleanup_only_on_success_witness :
    Ev.exitCode 0 ∈
      mainTrace (fun s => if s = "." then ["top"] else ["top", "work"]) {}
        ⟨true, true, true, true⟩ :=
  ((c8_cleanup_only_on_success (fun s => if s = "." then ["top"] else ["top", "work"]) {}
      ⟨true, true, true, true⟩ (by decide)).1 (by decide)).2.1

/-- Helper for C9: one harness iteration prints OK exactly when the observed
pipeline pass (exit code 0) matches the expected boolean, and ERROR exactly
otherwise, for table expectations 0 and 1. -/
theorem runCase_verdict (f : String → Int) (name : String) (expected : Nat)
    (h : expected = 0 ∨ expected = 1) :
    (TestPy.runCase f name expected = "OK" ↔ ((f name = 0) ↔ expected = 1)) ∧
    (TestPy.runCase f name expected = "ERROR" ↔ ¬((f name = 0) ↔ expected = 1)) := by
  rcases h with h | h <;> subst h <;> by_cases hf : f name = 0 <;>
    simp [TestPy.runCase, hf]

/-- C9: whatever the observed per-case return codes are, the harness emits
one verdict line per table entry, covering every entry of the fixed case
table in order (no early abort); each line reads OK iff the observed
pass/fail equals the expected outcome in the table, and ERROR otherwise. -/
theorem c9_harness_all_cases (f : String → Int) :
    (TestPy.main f).map Prod.fst =
      ["project.tar", "project.tar.gz", "project_build_error.tar.gz",
       "project_empty_readme.tar.gz", "project_no_dir.tar.gz",
       "project_no_readme.tar.gz"] ∧
    ∀ name expected, (name, expected) ∈ TestPy.tests →
      (TestPy.runCase f name expected = "OK" ↔ ((f name = 0) ↔ expected = 1)) ∧
      (TestPy.runCase f name expected = "ERROR" ↔ ¬((f name = 0) ↔ expected = 1)) := by
  constructor
  · simp [TestPy.main, TestPy.tests]
  · intro name expected hmem
    have h01 : expected = 0 ∨ expected = 1 := by
      simp [TestPy.tests, Prod.ext_iff] at hmem
      rcases hmem with ⟨h1, h2⟩ | ⟨h1, h2⟩ | ⟨h1, h2⟩ | ⟨h1, h2⟩ | ⟨h1, h2⟩ | ⟨h1, h2⟩ <;>
        omega
    exact runCase_verdict f name expected h01

/-- Witness for C9: when every pipeline run exits 0, the first case (which
expects failure) prints ERROR. -/
theorem c9_harness_all_cases_witness :
    TestPy.runCase (fun _ => (0 : Int)) "project.tar" 0 = "ERROR" :=
  ((c9_harness_all_cases (fun _ => (0 : Int))).2 "project.tar" 0
      (by simp [TestPy.tests])).2.mpr (by simp)
